import Mathlib

/-!
Verification of `shooting_linear_trivial`, a demo of the shooting method for
the linear boundary-value problem x'(t) = λ x(t), x(T) = x_T.

The script defines two pure functions and one derived scalar
(src/shooting_linear_trivial.py, lines 53-60):

  def solution(t, theta): return theta * np.exp(lam * t)
  def F(theta):           return theta * np.exp(lam * T) - x_T
  theta_star = x_T * np.exp(-lam * T)

In the Python source `lam`, `T` and `x_T` are module-level variables read by
the closures; the embedding passes them explicitly as leading arguments.
Floating-point arithmetic is modelled by exact real arithmetic.
-/

namespace ShootingLinearTrivial

/-- Embedding of `solution(t, theta) = theta * np.exp(lam * t)`
(src/shooting_linear_trivial.py line 53-54). The ambient variable `lam` is an
explicit first argument. -/
noncomputable def solution (lam t theta : ℝ) : ℝ :=
  theta * Real.exp (lam * t)

/-- Embedding of `F(theta) = theta * np.exp(lam * T) - x_T`
(src/shooting_linear_trivial.py line 56-57). The ambient variables `lam`, `T`
and `x_T` are explicit leading arguments. -/
noncomputable def F (lam T x_T theta : ℝ) : ℝ :=
  theta * Real.exp (lam * T) - x_T

/-- Embedding of `theta_star = x_T * np.exp(-lam * T)`
(src/shooting_linear_trivial.py line 60). -/
noncomputable def theta_star (lam T x_T : ℝ) : ℝ :=
  x_T * Real.exp (-lam * T)

/-- Lower bound on e^5, derived from the nine-digit bound on e. -/
theorem exp_five_gt : (148.412 : ℝ) < Real.exp 5 := by
  have h5 : Real.exp (5 : ℝ) = Real.exp 1 ^ (5 : ℕ) := by
    rw [← Real.exp_nat_mul]; norm_num
  have hb : (2.7182818283 : ℝ) ^ (5 : ℕ) < Real.exp 1 ^ (5 : ℕ) := by
    apply pow_lt_pow_left₀ Real.exp_one_gt_d9 (by norm_num)
    norm_num
  rw [h5]
  calc (148.412 : ℝ) < (2.7182818283 : ℝ) ^ (5 : ℕ) := by norm_num
    _ < Real.exp 1 ^ (5 : ℕ) := hb

/-- Upper bound on e^5, derived from the nine-digit bound on e. -/
theorem exp_five_lt : Real.exp 5 < (148.414 : ℝ) := by
  have h5 : Real.exp (5 : ℝ) = Real.exp 1 ^ (5 : ℕ) := by
    rw [← Real.exp_nat_mul]; norm_num
  have hb : Real.exp 1 ^ (5 : ℕ) < (2.7182818286 : ℝ) ^ (5 : ℕ) := by
    apply pow_lt_pow_left₀ Real.exp_one_lt_d9 (le_of_lt (Real.exp_pos 1))
    norm_num
  rw [h5]
  calc Real.exp 1 ^ (5 : ℕ) < (2.7182818286 : ℝ) ^ (5 : ℕ) := hb
    _ < 148.414 := by norm_num

/-- C1: for every λ, T, x_T, the residual of the exact initial value vanishes:
F(θ*) = θ*·e^(λT) − x_T = 0 (exactly, in real arithmetic, hence within any
floating-point tolerance). -/
theorem F_theta_star_eq_zero (lam T x_T : ℝ) :
    F lam T x_T (theta_star lam T x_T) = 0 := by
  unfold F theta_star
  rw [mul_assoc, ← Real.exp_add]
  simp

/-- C2: the program computes the exact initial value as θ* = x_T·e^(−λT). -/
theorem theta_star_eq (lam T x_T : ℝ) :
    theta_star lam T x_T = x_T * Real.exp (-(lam * T)) := by
  rw [theta_star, neg_mul]

/-- C3: evaluating the trajectory at the terminal time with the exact initial
value hits the boundary condition: solution(T, θ*) = x_T (exactly, in real
arithmetic). -/
theorem solution_at_T_theta_star (lam T x_T : ℝ) :
    solution lam T (theta_star lam T x_T) = x_T := by
  unfold solution theta_star
  rw [mul_assoc, ← Real.exp_add]
  simp

/-- C4: the shooting residual function satisfies F(θ) = θ·e^(λT) − x_T for
every θ, λ, T, x_T. -/
theorem F_eq (lam T x_T theta : ℝ) :
    F lam T x_T theta = theta * Real.exp (lam * T) - x_T := rfl

/-- C5: the trajectory function satisfies solution(t, θ) = θ·e^(λt) for every
t, θ and every λ. -/
theorem solution_eq (lam t theta : ℝ) :
    solution lam t theta = theta * Real.exp (lam * t) := rfl

/-- C6: solution(0, θ) = θ for every θ and λ: evaluating any shot at t = 0
returns the trial initial value unchanged. -/
theorem solution_at_zero (lam theta : ℝ) :
    solution lam 0 theta = theta := by
  simp [solution]

/-- C7: for λ = −1, T = 5, x_T = 1 the computed θ* equals e^5 (which lies
within 0.001 of 148.413), and F(0.2) equals 0.2·e^(−5) − 1 (which lies within
0.001 of −0.9987). -/
theorem example_lam_neg_one :
    theta_star (-1) 5 1 = Real.exp 5 ∧
    |Real.exp 5 - 148.413| < 0.001 ∧
    F (-1) 5 1 0.2 = 0.2 * Real.exp (-5) - 1 ∧
    |0.2 * Real.exp (-5) - 1 - (-0.9987)| < 0.001 := by
  have hgt := exp_five_gt
  have hlt := exp_five_lt
  have hpos := Real.exp_pos (5 : ℝ)
  refine ⟨?_, ?_, ?_, ?_⟩
  · unfold theta_star; norm_num
  · rw [abs_lt]; constructor <;> linarith
  · unfold F; norm_num
  · have hinv : Real.exp (-5 : ℝ) = (Real.exp 5)⁻¹ := Real.exp_neg 5
    have h1 : (Real.exp 5)⁻¹ < (148.412 : ℝ)⁻¹ :=
      inv_strictAnti₀ (by norm_num) hgt
    have h3 : (148.414 : ℝ)⁻¹ < (Real.exp 5)⁻¹ :=
      inv_strictAnti₀ hpos hlt
    rw [hinv, abs_lt]
    constructor <;> linarith

/-- C9: the shooting residual equals the miss of the shot at the terminal
time: F(θ) = solution(T, θ) − x_T for every θ, λ, T, x_T. -/
theorem F_eq_solution_sub (lam T x_T theta : ℝ) :
    F lam T x_T theta = solution lam T theta - x_T := rfl

/-- C10: for every λ, T, x_T the residual F is strictly increasing and affine
in θ with slope e^(λT) > 0, and θ* = x_T·e^(−λT) is its unique root. -/
theorem F_strictMono_affine_unique_root (lam T x_T : ℝ) :
    StrictMono (F lam T x_T) ∧
    (∀ theta : ℝ, F lam T x_T theta = Real.exp (lam * T) * theta + (-x_T)) ∧
    0 < Real.exp (lam * T) ∧
    (∀ theta : ℝ, F lam T x_T theta = 0 ↔ theta = theta_star lam T x_T) := by
  have hpos := Real.exp_pos (lam * T)
  refine ⟨?_, ?_, hpos, ?_⟩
  · intro a b hab
    unfold F
    have := mul_lt_mul_of_pos_right hab hpos
    linarith
  · intro theta
    unfold F
    ring
  · intro theta
    unfold F theta_star
    rw [neg_mul, Real.exp_neg, sub_eq_zero]
    constructor
    · intro h
      field_simp
      linarith [h]
    · intro h
      rw [h]
      field_simp

end ShootingLinearTrivial
